import Mathlib

/-!
Shallow embedding of the dataset-wrapping fragment of the repository
(notebook `05-dataset_manipulation.ipynb`) and proofs of the spec's
claims about it.

The source code being embedded is:

  class MyDataset(torch.utils.data.Dataset):
      def __init__(self, x, y):
          self.x = x
          self.y = y
      def __len__(self):
          return len(self.y)
      def __getitem__(self, i):
          return self.x[i], self.y[i]

together with its consumers:

  label_counter = Counter()
  for data, label in dataset:
      label_counter[label] += 1

  list(dataset)

  list(zip(*dataset))

Python semantics embedded here:
* list indexing `xs[i]` supports negative indices (`xs[-1]` is the last
  element) and raises `IndexError` out of range; we model failure as
  `none` of an `Option`;
* `MyDataset` defines no `__iter__`, so `for pair in dataset` and
  `list(dataset)` use Python's legacy sequence-iteration protocol:
  call `__getitem__(0)`, `__getitem__(1)`, ... until a call raises
  `IndexError`.  Note this protocol never consults `__len__`;
* `zip(*rows)` truncates at the shortest row (a transpose stopping as
  soon as some row is exhausted); `zip()` of zero rows is empty;
* `Counter()` maps every absent key to 0, and `c[k] += 1` increments;
  we model the counter as a function from labels to counts, so a key
  is "present" exactly when its count is positive.
-/

/-- Python positional lookup `xs[i]` on a list: a negative index `i`
counts from the end (`xs[-1]` is the last element); an index out of
range yields `none` (Python raises `IndexError`). -/
def pyGet {α : Type} (xs : List α) (i : Int) : Option α :=
  let n : Int := xs.length
  let j : Int := if i < 0 then i + n else i
  if 0 ≤ j ∧ j < n then xs[j.toNat]? else none

/-- The notebook's `MyDataset`: `__init__` stores the two sequences
unchanged, with no validation of any kind (in particular no length
check). -/
structure MyDataset (α β : Type) where
  x : List α
  y : List β

/-- `__len__`: `return len(self.y)` — the length of the label sequence
alone. -/
def MyDataset.len {α β : Type} (d : MyDataset α β) : Nat :=
  d.y.length

/-- `__getitem__`: `return self.x[i], self.y[i]` — Python indexing into
both backing lists; an `IndexError` from either lookup propagates
(modelled as `none`). -/
def MyDataset.getitem {α β : Type} (d : MyDataset α β) (i : Int) : Option (α × β) :=
  (pyGet d.x i).bind fun a => (pyGet d.y i).map fun b => (a, b)

/-- `__getitem__` as a state-passing operation: the method body only
reads `self.x` and `self.y`, so the object after the call is the object
before it.  Python's sequence iterator calls this repeatedly. -/
def MyDataset.getitemS {α β : Type} (d : MyDataset α β) (i : Int) :
    Option (α × β) × MyDataset α β :=
  (d.getitem i, d)

/-- Python's legacy sequence-iteration loop from index `i`: call
`__getitem__(i)`, `__getitem__(i+1)`, ... until a call fails, threading
the object state through the calls.  `fuel` is an upper bound on the
remaining number of successful calls, used only for termination. -/
def iterFromS {α β : Type} (fuel : Nat) (i : Nat) (d : MyDataset α β) :
    List (α × β) × MyDataset α β :=
  match fuel with
  | 0 => ([], d)
  | fuel + 1 =>
    match d.getitemS (i : Int) with
    | (none, d') => ([], d')
    | (some p, d') =>
      let r := iterFromS fuel (i + 1) d'
      (p :: r.1, r.2)

/-- `iter(dataset)` run to exhaustion: Python's sequence-iteration
protocol starting at index 0.  A dataset can yield at most
`min (len x) (len y)` pairs, so `len x + len y + 1` is enough fuel. -/
def MyDataset.iterate {α β : Type} (d : MyDataset α β) :
    List (α × β) × MyDataset α β :=
  iterFromS (d.x.length + d.y.length + 1) 0 d

/-- `list(dataset)`: the sequence of pairs produced by one full
iteration pass. -/
def pyList {α β : Type} (d : MyDataset α β) : List (α × β) :=
  d.iterate.1

/-- One step of the notebook's aggregation loop body
`label_counter[label] += 1` on a counter modelled as a function from
labels to counts. -/
def counterStep {β : Type} [DecidableEq β] (m : β → Nat) (lab : β) : β → Nat :=
  fun b => if b = lab then m b + 1 else m b

/-- The notebook's `label_counter`: start from the empty `Counter()`
(every key counts 0) and fold the iteration pairs, incrementing the
count of each pair's label. -/
def label_counter {α β : Type} [DecidableEq β] (d : MyDataset α β) : β → Nat :=
  (pyList d).foldl (fun m p => counterStep m p.2) (fun _ => 0)

/-- Heads-and-tails step of Python's `zip`: if every row is nonempty,
return the tuple of heads and the list of tails; if some row is
exhausted, signal the end of the zip. -/
def pyHeads {γ : Type} : List (List γ) → Option (List γ × List (List γ))
  | [] => some ([], [])
  | [] :: _ => none
  | (a :: t) :: rs => (pyHeads rs).map fun r => (a :: r.1, t :: r.2)

/-- Python's `zip` loop: repeatedly emit the tuple of current heads
until some row is exhausted.  `fuel` bounds the number of emitted
tuples, for termination. -/
def pyZipAux {γ : Type} (fuel : Nat) (rows : List (List γ)) : List (List γ) :=
  match fuel with
  | 0 => []
  | fuel + 1 =>
    match pyHeads rows with
    | none => []
    | some (hs, ts) => hs :: pyZipAux fuel ts

/-- `list(zip(*rows))`: zero rows zip to the empty list; otherwise the
zip stops when any row is exhausted, which happens after at most
(first row's length) tuples. -/
def pyZip {γ : Type} (rows : List (List γ)) : List (List γ) :=
  match rows with
  | [] => []
  | r :: rs => pyZipAux r.length (r :: rs)

/-- `list(zip(*dataset))`: iterate the dataset, view each produced pair
as the two-element sequence Python unpacks it into, and zip.  For a
nonempty dataset this yields the tuple of all features followed by the
tuple of all labels. -/
def zipStarDataset {γ : Type} (d : MyDataset γ γ) : List (List γ) :=
  pyZip ((pyList d).map fun p => [p.1, p.2])

/-- Python lookup at a nonnegative index agrees with `List.getElem?`. -/
theorem pyGet_natCast {α : Type} (xs : List α) (i : Nat) :
    pyGet xs (i : Int) = xs[i]? := by
  have h0 : ¬ ((i : Int) < 0) := by omega
  simp only [pyGet]
  rw [if_neg h0]
  by_cases h : i < xs.length
  · rw [if_pos ⟨by omega, by omega⟩]
    simp
  · rw [if_neg (by omega), eq_comm]
    exact List.getElem?_eq_none (by omega)

/-- Positional lookup into a zip is the pairing of the two positional
lookups. -/
theorem getElem?_zip_eq {α β : Type} :
    ∀ (x : List α) (y : List β) (i : Nat),
      (x.zip y)[i]? = x[i]?.bind fun a => y[i]?.map fun b => (a, b)
  | [], y, i => by simp
  | a :: x, [], i => by
    cases h : (a :: x)[i]? <;> simp [List.zip_nil_right, h]
  | a :: x, b :: y, 0 => by
    simp [List.zip_cons_cons]
  | a :: x, b :: y, i + 1 => by
    simp only [List.zip_cons_cons, List.getElem?_cons_succ]
    exact getElem?_zip_eq x y i

/-- `__getitem__` at a nonnegative index returns exactly the entry of
the zip of the two backing sequences. -/
theorem getitem_natCast {α β : Type} (x : List α) (y : List β) (i : Nat) :
    (MyDataset.mk x y).getitem (i : Int) = (x.zip y)[i]? := by
  simp [MyDataset.getitem, pyGet_natCast, getElem?_zip_eq]

/-- Running the iteration loop leaves the dataset object unchanged:
`__getitem__` only reads fields. -/
theorem iterFromS_state {α β : Type} :
    ∀ (fuel i : Nat) (d : MyDataset α β), (iterFromS fuel i d).2 = d
  | 0, _, _ => rfl
  | fuel + 1, i, d => by
    simp only [iterFromS, MyDataset.getitemS]
    cases h : d.getitem (i : Int) with
    | none => rfl
    | some p => simpa using iterFromS_state fuel (i + 1) d

/-- With enough fuel, the iteration loop started at index `i` collects
exactly the zip of the backing sequences from position `i` on. -/
theorem iterFromS_list {α β : Type} (x : List α) (y : List β) :
    ∀ (fuel i : Nat), (x.zip y).length ≤ i + fuel →
      (iterFromS fuel i (MyDataset.mk x y)).1 = (x.zip y).drop i := by
  intro fuel
  induction fuel with
  | zero =>
    intro i hi
    rw [List.drop_eq_nil_of_le (by omega)]
    rfl
  | succ fuel ih =>
    intro i hi
    simp only [iterFromS, MyDataset.getitemS, getitem_natCast]
    cases h : (x.zip y)[i]? with
    | none =>
      rw [List.drop_eq_nil_of_le (List.getElem?_eq_none_iff.mp h)]
    | some p =>
      have hlt : i < (x.zip y).length := by
        by_contra hc
        rw [List.getElem?_eq_none (by omega)] at h
        exact Option.noConfusion h
      have hp : p = (x.zip y)[i] := by
        rw [List.getElem?_eq_getElem hlt] at h
        exact (Option.some.inj h).symm
      show p :: (iterFromS fuel (i + 1) (MyDataset.mk x y)).1 = _
      rw [List.drop_eq_getElem_cons hlt, ← hp]
      exact congrArg (p :: ·) (ih (i + 1) (by omega))

/-- `list(dataset)` is the zip of the two backing sequences: iteration
stops at the first failing `__getitem__`, i.e. after
`min (len x) (len y)` pairs. -/
theorem pyList_eq {α β : Type} (x : List α) (y : List β) :
    pyList (MyDataset.mk x y) = x.zip y := by
  have h : (x.zip y).length ≤ 0 + (x.length + y.length + 1) := by
    rw [List.length_zip]
    omega
  simpa using iterFromS_list x y (x.length + y.length + 1) 0 h

/-- The value of the counter fold at a label is the start value plus
the number of occurrences of that label among the pairs' labels. -/
theorem counterFold_eq {α β : Type} [DecidableEq β] :
    ∀ (ps : List (α × β)) (m : β → Nat) (b : β),
      (ps.foldl (fun m p => counterStep m p.2) m) b
        = m b + List.count b (ps.map Prod.snd)
  | [], m, b => by simp
  | p :: ps, m, b => by
    simp only [List.foldl_cons, List.map_cons]
    rw [counterFold_eq ps (counterStep m p.2) b, List.count_cons]
    by_cases h : b = p.2
    · simp only [counterStep, if_pos h, h, beq_self_eq_true, if_pos]
      omega
    · have h2 : ¬ (p.2 == b) = true := by
        simp only [beq_iff_eq]
        exact fun e => h e.symm
      simp only [counterStep, if_neg h, if_neg h2]
      omega

/-- Heads-and-tails of rows that are all two-element: the firsts, and
the rows of seconds. -/
theorem pyHeads_pairs {γ : Type} :
    ∀ (ps : List (γ × γ)),
      pyHeads (ps.map fun p => [p.1, p.2])
        = some (ps.map Prod.fst, ps.map fun p => [p.2])
  | [] => rfl
  | p :: ps => by
    simp [pyHeads, pyHeads_pairs ps]

/-- Heads-and-tails of rows that are all singletons: the values, and
all-empty tails. -/
theorem pyHeads_snds {γ : Type} :
    ∀ (ps : List (γ × γ)),
      pyHeads (ps.map fun p => [p.2])
        = some (ps.map Prod.snd, ps.map fun _ => ([] : List γ))
  | [] => rfl
  | p :: ps => by
    simp [pyHeads, pyHeads_snds ps]

/-- Python's `zip` over a nonempty list of (feature, label) rows yields
exactly two tuples: all features, then all labels. -/
theorem pyZip_pairs {γ : Type} (p : γ × γ) (ps : List (γ × γ)) :
    pyZip ((p :: ps).map fun q => [q.1, q.2])
      = [(p :: ps).map Prod.fst, (p :: ps).map Prod.snd] := by
  have h1 := pyHeads_pairs (p :: ps)
  have h2 := pyHeads_snds (p :: ps)
  simp only [List.map_cons] at h1 h2 ⊢
  simp only [pyZip, pyZipAux, h1, h2]

/-- Python lookup at a negative index in range counts from the end of
the list. -/
theorem pyGet_neg {α : Type} (xs : List α) (i : Int)
    (h1 : -(xs.length : Int) ≤ i) (h2 : i < 0) :
    pyGet xs i = xs[(i + (xs.length : Int)).toNat]? := by
  simp only [pyGet]
  rw [if_pos h2, if_pos ⟨by omega, by omega⟩]

/-- Python lookup fails exactly when the index is at or beyond the
length, or strictly below minus the length. -/
theorem pyGet_eq_none_iff {α : Type} (xs : List α) (i : Int) :
    pyGet xs i = none ↔ ((xs.length : Int) ≤ i ∨ i < -(xs.length : Int)) := by
  simp only [pyGet]
  by_cases h2 : i < 0
  · rw [if_pos h2]
    by_cases h3 : (0 : Int) ≤ i + (xs.length : Int) ∧
        i + (xs.length : Int) < (xs.length : Int)
    · rw [if_pos h3, List.getElem?_eq_getElem (by omega)]
      constructor
      · intro hx
        exact Option.noConfusion hx
      · intro hx
        exact absurd hx (by omega)
    · rw [if_neg h3]
      constructor
      · intro _
        omega
      · intro _
        rfl
  · rw [if_neg h2]
    by_cases h3 : (0 : Int) ≤ i ∧ i < (xs.length : Int)
    · rw [if_pos h3, List.getElem?_eq_getElem (by omega)]
      constructor
      · intro hx
        exact Option.noConfusion hx
      · intro hx
        exact absurd hx (by omega)
    · rw [if_neg h3]
      constructor
      · intro _
        omega
      · intro _
        rfl

/-- Pairing two optional values is `none` exactly when one of them
is. -/
theorem bindPair_eq_none {α β : Type} (oa : Option α) (ob : Option β) :
    (oa.bind fun a => ob.map fun b => (a, b)) = none ↔ (oa = none ∨ ob = none) := by
  cases oa <;> cases ob <;> simp

/-- For equal-length backing sequences, `__getitem__` at a negative
in-range index returns the zip entry at position `length + i`. -/
theorem getitem_neg {α β : Type} (f : List α) (l : List β)
    (h : f.length = l.length) (i : Int)
    (h1 : -(l.length : Int) ≤ i) (h2 : i < 0) :
    (MyDataset.mk f l).getitem i = (f.zip l)[(i + (l.length : Int)).toNat]? := by
  simp only [MyDataset.getitem]
  rw [pyGet_neg f i (by omega) h2, pyGet_neg l i (by omega) h2,
    (show i + (f.length : Int) = i + (l.length : Int) by rw [h])]
  exact (getElem?_zip_eq f l _).symm

/-- C1, counterexample: the claim says `create([1,2,3],[0,0])` fails
with a `LengthMismatchError`; in the code `__init__` contains no length
check and no failure path at all, so the construction succeeds and
yields a functioning adapter: it reports size 2 and serves lookups. -/
theorem C1_counterexample :
    (MyDataset.mk [1, 2, 3] [0, 0]).len = 2 ∧
    (MyDataset.mk [1, 2, 3] [0, 0]).getitem 0 = some (1, 0) := by
  decide

/-- C1 (amended): construction performs no length validation: for any
two sequences, of unequal lengths in particular, it succeeds, stores
both sequences unchanged, reports `len(labels)` as its size, and
iterates as a dataset. -/
theorem C1_no_length_validation {α β : Type} (f : List α) (l : List β)
    (_h : f.length ≠ l.length) :
    (MyDataset.mk f l).x = f ∧ (MyDataset.mk f l).y = l ∧
    (MyDataset.mk f l).len = l.length ∧
    pyList (MyDataset.mk f l) = f.zip l :=
  ⟨rfl, rfl, rfl, pyList_eq f l⟩

/-- C1, witness: instantiating the amended claim at the spec's error
case `create([1,2,3], [0,0])`. -/
theorem C1_no_length_validation_witness :
    ([1, 2, 3] : List Nat).length ≠ ([0, 0] : List Nat).length ∧
    ((MyDataset.mk ([1, 2, 3] : List Nat) ([0, 0] : List Nat)).x = [1, 2, 3] ∧
     (MyDataset.mk ([1, 2, 3] : List Nat) ([0, 0] : List Nat)).y = [0, 0] ∧
     (MyDataset.mk ([1, 2, 3] : List Nat) ([0, 0] : List Nat)).len = ([0, 0] : List Nat).length ∧
     pyList (MyDataset.mk ([1, 2, 3] : List Nat) ([0, 0] : List Nat))
       = ([1, 2, 3] : List Nat).zip ([0, 0] : List Nat)) :=
  ⟨by decide, C1_no_length_validation [1, 2, 3] [0, 0] (by decide)⟩

/-- C2: for an adapter built from equal-length sequences of common
length N, `size()` returns N, and for every `0 ≤ i < N`, `get(i)`
returns the pair `(features[i], labels[i])`. -/
theorem C2_size_and_get {α β : Type} (f : List α) (l : List β)
    (h : f.length = l.length) (i : Nat) (hi : i < l.length) :
    (MyDataset.mk f l).len = l.length ∧
    (MyDataset.mk f l).getitem (i : Int)
      = some (f.get ⟨i, by omega⟩, l.get ⟨i, hi⟩) := by
  refine ⟨rfl, ?_⟩
  have hz : i < (f.zip l).length := by
    rw [List.length_zip]
    omega
  rw [getitem_natCast, List.getElem?_eq_getElem hz]
  simp [List.get_eq_getElem]

/-- C2, witness: the scenario sequences, index 2. -/
theorem C2_size_and_get_witness :
    ([1, 2, 3, 4, 5] : List Nat).length = ([0, 0, 1, 0, 1] : List Nat).length ∧
    (2 : Nat) < ([0, 0, 1, 0, 1] : List Nat).length ∧
    ((MyDataset.mk ([1, 2, 3, 4, 5] : List Nat) ([0, 0, 1, 0, 1] : List Nat)).len = 5 ∧
     (MyDataset.mk ([1, 2, 3, 4, 5] : List Nat) ([0, 0, 1, 0, 1] : List Nat)).getitem 2
       = some (3, 1)) :=
  ⟨by decide, by decide, by
    have h := C2_size_and_get [1, 2, 3, 4, 5] [0, 0, 1, 0, 1] rfl 2 (by decide)
    exact ⟨h.1.trans rfl, h.2.trans rfl⟩⟩

/-- C3, counterexample: the claim says `get(i)` fails for every
negative `i`; in the code `self.x[i]` and `self.y[i]` are Python
lookups, which accept negative in-range indices, so `get(-1)` on the
scenario adapter succeeds and returns the last pair. -/
theorem C3_counterexample :
    (MyDataset.mk [1, 2, 3, 4, 5] [0, 0, 1, 0, 1]).getitem (-1) = some (5, 1) := by
  decide

/-- C3 (amended): for an adapter built from equal-length sequences of
length N, `get(i)` fails exactly when `i ≥ N` or `i < -N`; a negative
`i` with `-N ≤ i ≤ -1` succeeds (see C9). -/
theorem C3_out_of_range {α β : Type} (f : List α) (l : List β)
    (h : f.length = l.length) (i : Int) :
    (MyDataset.mk f l).getitem i = none ↔
      ((l.length : Int) ≤ i ∨ i < -(l.length : Int)) := by
  simp only [MyDataset.getitem]
  rw [bindPair_eq_none, pyGet_eq_none_iff, pyGet_eq_none_iff, h]
  omega

/-- C3, witness: an equal-length adapter, probed past the end. -/
theorem C3_out_of_range_witness :
    ([1, 2, 3] : List Nat).length = ([4, 5, 6] : List Nat).length ∧
    ((MyDataset.mk ([1, 2, 3] : List Nat) ([4, 5, 6] : List Nat)).getitem 5 = none ↔
      ((([4, 5, 6] : List Nat).length : Int) ≤ 5 ∨
        (5 : Int) < -(([4, 5, 6] : List Nat).length : Int))) :=
  ⟨rfl, C3_out_of_range [1, 2, 3] [4, 5, 6] rfl 5⟩

/-- C4, counterexample: the claim includes empty inputs, but
`list(zip(*dataset))` on the empty adapter is `zip()` of no rows, which
is the empty list — not a pair of two empty sequences. -/
theorem C4_counterexample :
    zipStarDataset (MyDataset.mk ([] : List Nat) ([] : List Nat)) ≠ [[], []] := by
  decide

/-- C4 (amended): for every pair of equal-length NONEMPTY sequences f
and l, `to_feature_and_label_sequences(create(f, l))` returns the two
tuples f and l unchanged, in that order — index alignment preserved;
for empty inputs the code returns an empty sequence of tuples rather
than a pair of empty sequences. -/
theorem C4_unzip_roundtrip {γ : Type} (f l : List γ)
    (h : f.length = l.length) (hne : f ≠ []) :
    zipStarDataset (MyDataset.mk f l) = [f, l] := by
  simp only [zipStarDataset, pyList_eq]
  cases hz : f.zip l with
  | nil =>
    exfalso
    cases f with
    | nil => exact hne rfl
    | cons a f' =>
      cases l with
      | nil => simp at h
      | cons b l' => simp [List.zip_cons_cons] at hz
  | cons p ps =>
    rw [pyZip_pairs, ← hz,
      List.map_fst_zip f l (by omega), List.map_snd_zip f l (by omega)]

/-- C4, witness: the spec's unzip scenario. -/
theorem C4_unzip_roundtrip_witness :
    ([1, 2, 3, 4, 5] : List Nat).length = ([0, 0, 1, 0, 1] : List Nat).length ∧
    ([1, 2, 3, 4, 5] : List Nat) ≠ [] ∧
    zipStarDataset (MyDataset.mk ([1, 2, 3, 4, 5] : List Nat) ([0, 0, 1, 0, 1] : List Nat))
      = [[1, 2, 3, 4, 5], [0, 0, 1, 0, 1]] :=
  ⟨by decide, by decide, C4_unzip_roundtrip [1, 2, 3, 4, 5] [0, 0, 1, 0, 1] rfl (by decide)⟩

/-- C5: for an adapter built from equal-length sequences, the value of
`count_by_label` at any label b is the multiset frequency of b in the
labels sequence; in particular it is 0 at labels that never occur, so
no other keys are present. -/
theorem C5_count_by_label {α β : Type} [DecidableEq β] (f : List α) (l : List β)
    (h : f.length = l.length) (b : β) :
    label_counter (MyDataset.mk f l) b = List.count b l := by
  simp only [label_counter, pyList_eq]
  rw [counterFold_eq (f.zip l) (fun _ => 0) b, List.map_snd_zip f l (by omega)]
  simp

/-- C5, witness: the spec's aggregation scenario, `{0: 3, 1: 2}`, and
absence of any other key, sampled at 7. -/
theorem C5_count_by_label_witness :
    ([1, 2, 3, 4, 5] : List Nat).length = ([0, 0, 1, 0, 1] : List Nat).length ∧
    label_counter (MyDataset.mk ([1, 2, 3, 4, 5] : List Nat) ([0, 0, 1, 0, 1] : List Nat)) 0 = 3 ∧
    label_counter (MyDataset.mk ([1, 2, 3, 4, 5] : List Nat) ([0, 0, 1, 0, 1] : List Nat)) 1 = 2 ∧
    label_counter (MyDataset.mk ([1, 2, 3, 4, 5] : List Nat) ([0, 0, 1, 0, 1] : List Nat)) 7 = 0 :=
  ⟨by decide,
   (C5_count_by_label [1, 2, 3, 4, 5] [0, 0, 1, 0, 1] rfl 0).trans (by decide),
   (C5_count_by_label [1, 2, 3, 4, 5] [0, 0, 1, 0, 1] rfl 1).trans (by decide),
   (C5_count_by_label [1, 2, 3, 4, 5] [0, 0, 1, 0, 1] rfl 7).trans (by decide)⟩

/-- C6: for an adapter of size N built from equal-length sequences,
`to_pair_sequence` (i.e. `list(dataset)`) has length N and its i-th
entry is exactly `get(i)`, for every i — the ordered sequence
`[get(0), ..., get(N-1)]`. -/
theorem C6_to_pair_sequence {α β : Type} (f : List α) (l : List β)
    (h : f.length = l.length) :
    (pyList (MyDataset.mk f l)).length = (MyDataset.mk f l).len ∧
    ∀ i : Nat, (pyList (MyDataset.mk f l))[i]? = (MyDataset.mk f l).getitem (i : Int) := by
  refine ⟨?_, fun i => ?_⟩
  · simp only [pyList_eq, List.length_zip, MyDataset.len]
    omega
  · rw [pyList_eq, getitem_natCast]

/-- C6, witness: the spec's pair-listing scenario, with the i-th entry
checked at i = 2 and the whole list checked against
`[(1,0), (2,0), (3,1), (4,0), (5,1)]`. -/
theorem C6_to_pair_sequence_witness :
    ([1, 2, 3, 4, 5] : List Nat).length = ([0, 0, 1, 0, 1] : List Nat).length ∧
    (pyList (MyDataset.mk ([1, 2, 3, 4, 5] : List Nat) ([0, 0, 1, 0, 1] : List Nat))).length
      = (MyDataset.mk ([1, 2, 3, 4, 5] : List Nat) ([0, 0, 1, 0, 1] : List Nat)).len ∧
    (pyList (MyDataset.mk ([1, 2, 3, 4, 5] : List Nat) ([0, 0, 1, 0, 1] : List Nat)))[2]?
      = (MyDataset.mk ([1, 2, 3, 4, 5] : List Nat) ([0, 0, 1, 0, 1] : List Nat)).getitem 2 ∧
    pyList (MyDataset.mk ([1, 2, 3, 4, 5] : List Nat) ([0, 0, 1, 0, 1] : List Nat))
      = [(1, 0), (2, 0), (3, 1), (4, 0), (5, 1)] :=
  ⟨by decide,
   (C6_to_pair_sequence [1, 2, 3, 4, 5] [0, 0, 1, 0, 1] rfl).1,
   (C6_to_pair_sequence [1, 2, 3, 4, 5] [0, 0, 1, 0, 1] rfl).2 2,
   by decide⟩

/-- C7: running `iterate()` leaves the adapter's state unchanged
(`__getitem__` only reads fields), so a second `iterate()` on the same
adapter yields an element-wise identical sequence: iteration is
restartable and non-consuming. -/
theorem C7_iterate_restartable {α β : Type} (d : MyDataset α β) :
    d.iterate.2 = d ∧ (d.iterate.2).iterate.1 = d.iterate.1 := by
  have hs : d.iterate.2 = d := iterFromS_state _ 0 d
  exact ⟨hs, by rw [hs]⟩

/-- C8: `create([], [])` succeeds with `size() == 0`, `iterate()` on it
yields the empty sequence, and `get(0)` fails (Python `IndexError`,
modelled as `none`). -/
theorem C8_empty_dataset :
    (MyDataset.mk ([] : List Nat) ([] : List Nat)).len = 0 ∧
    pyList (MyDataset.mk ([] : List Nat) ([] : List Nat)) = [] ∧
    (MyDataset.mk ([] : List Nat) ([] : List Nat)).getitem 0 = none := by
  decide

/-- C9: on an adapter built from equal-length sequences, a negative
index i with -N ≤ i ≤ -1 succeeds: `get(i)` returns the pair
`(features[N+i], labels[N+i])`, because Python list lookup counts
negative indices from the end. -/
theorem C9_negative_index {α β : Type} (f : List α) (l : List β)
    (h : f.length = l.length) (i : Int)
    (h1 : -(l.length : Int) ≤ i) (h2 : i ≤ -1) :
    ∃ a b, (MyDataset.mk f l).getitem i = some (a, b) ∧
      f[(i + (l.length : Int)).toNat]? = some a ∧
      l[(i + (l.length : Int)).toNat]? = some b := by
  have hkf : (i + (l.length : Int)).toNat < f.length := by omega
  have hkl : (i + (l.length : Int)).toNat < l.length := by omega
  obtain ⟨a, ha⟩ : ∃ a, f[(i + (l.length : Int)).toNat]? = some a :=
    ⟨_, List.getElem?_eq_getElem hkf⟩
  obtain ⟨b, hb⟩ : ∃ b, l[(i + (l.length : Int)).toNat]? = some b :=
    ⟨_, List.getElem?_eq_getElem hkl⟩
  refine ⟨a, b, ?_, ha, hb⟩
  rw [getitem_neg f l h i (by omega) (by omega), getElem?_zip_eq, ha, hb]
  rfl

/-- C9, witness: the scenario adapter at index -1 returns the pair at
position 4. -/
theorem C9_negative_index_witness :
    ([1, 2, 3, 4, 5] : List Nat).length = ([0, 0, 1, 0, 1] : List Nat).length ∧
    -((([0, 0, 1, 0, 1] : List Nat).length : Int)) ≤ -1 ∧ ((-1 : Int) ≤ -1) ∧
    ∃ a b,
      (MyDataset.mk ([1, 2, 3, 4, 5] : List Nat) ([0, 0, 1, 0, 1] : List Nat)).getitem (-1)
        = some (a, b) ∧
      ([1, 2, 3, 4, 5] : List Nat)[((-1) + ((([0, 0, 1, 0, 1] : List Nat).length) : Int)).toNat]?
        = some a ∧
      ([0, 0, 1, 0, 1] : List Nat)[((-1) + ((([0, 0, 1, 0, 1] : List Nat).length) : Int)).toNat]?
        = some b :=
  ⟨by decide, by decide, by decide,
   C9_negative_index [1, 2, 3, 4, 5] [0, 0, 1, 0, 1] rfl (-1) (by decide) (by decide)⟩

/-- C10: with unequal-length inputs, construction nevertheless
succeeds; the object reports `size()` equal to the length of the
labels sequence alone, while iteration yields exactly
`min(len features, len labels)` pairs, so the two can disagree. -/
theorem C10_unequal_lengths {α β : Type} (f : List α) (l : List β)
    (_h : f.length ≠ l.length) :
    (MyDataset.mk f l).len = l.length ∧
    (pyList (MyDataset.mk f l)).length = min f.length l.length :=
  ⟨rfl, by rw [pyList_eq, List.length_zip]⟩

/-- C10, witness: one feature, two labels: `size()` is 2 but iteration
yields a single pair, exhibiting the disagreement. -/
theorem C10_unequal_lengths_witness :
    ([1] : List Nat).length ≠ ([0, 0] : List Nat).length ∧
    ((MyDataset.mk ([1] : List Nat) ([0, 0] : List Nat)).len = ([0, 0] : List Nat).length ∧
     (pyList (MyDataset.mk ([1] : List Nat) ([0, 0] : List Nat))).length
       = min ([1] : List Nat).length ([0, 0] : List Nat).length) ∧
    (MyDataset.mk ([1] : List Nat) ([0, 0] : List Nat)).len
      ≠ (pyList (MyDataset.mk ([1] : List Nat) ([0, 0] : List Nat))).length :=
  ⟨by decide, C10_unequal_lengths [1] [0, 0] (by decide), by decide⟩

example : pyGet [10, 20, 30] (-1) = some 30 := by decide
example : pyGet [10, 20, 30] 3 = none := by decide
example : pyList (MyDataset.mk [1, 2, 3, 4, 5] [0, 0, 1, 0, 1]) =
    [(1, 0), (2, 0), (3, 1), (4, 0), (5, 1)] := by decide
example : label_counter (MyDataset.mk [1, 2, 3, 4, 5] [0, 0, 1, 0, 1]) 0 = 3 := by decide
example : zipStarDataset (MyDataset.mk [1, 2, 3, 4, 5] [0, 0, 1, 0, 1]) =
    [[1, 2, 3, 4, 5], [0, 0, 1, 0, 1]] := by decide
example : zipStarDataset (MyDataset.mk ([] : List Nat) []) = [] := by decide
example : pyList (MyDataset.mk [1] [0, 0]) = [(1, 0)] := by decide
